import Mathlib

/-!
Shallow embedding of `src/routes/biens.js` (Express router for real-estate
listings, backed by SQLite) and proofs about the claims of the specification.

Conventions of the embedding:
* JavaScript strings are Lean `String`s; JavaScript numbers occurring here are
  exact decimals, modelled as `ℚ` (no claim depends on binary-double rounding);
  `NaN` is modelled as `Option.none` at parse time and as `SqlParam.nan` when
  bound into a query.
* HTTP query parameters (`req.query.x`) are `Option String` (`none` = absent).
* The SQLite collaborator is modelled by an evaluator over the generated
  condition strings and their positional bound parameters, with the semantics
  of SQLite 3: `LIKE` is ASCII-case-insensitive with `%`/`_` wildcards, a
  bound `NaN` becomes SQL `NULL` and comparisons against it are not satisfied,
  `LIMIT` of a negative number means "no limit", a negative `OFFSET` means 0,
  and binding `NULL` as `LIMIT`/`OFFSET` raises a datatype-mismatch error
  (surfaced by the route's catch-block as a 500 response).
-/

namespace Biens

/-! ## Models of the JavaScript builtins used by the routes -/

/-- Numeric value of a decimal digit character, if it is one. -/
def decDigit (c : Char) : Option Nat :=
  if '0' ≤ c ∧ c ≤ '9' then some (c.toNat - '0'.toNat) else none

/-- Numeric value of a hexadecimal digit character, if it is one. -/
def hexDigit (c : Char) : Option Nat :=
  if '0' ≤ c ∧ c ≤ '9' then some (c.toNat - '0'.toNat)
  else if 'a' ≤ c ∧ c ≤ 'f' then some (c.toNat - 'a'.toNat + 10)
  else if 'A' ≤ c ∧ c ≤ 'F' then some (c.toNat - 'A'.toNat + 10)
  else none

/-- Longest prefix of characters accepted by `dig`, as digit values, plus the
remaining characters. -/
def takeDigits (dig : Char → Option Nat) : List Char → List Nat × List Char
  | [] => ([], [])
  | c :: cs =>
    match dig c with
    | some d => let r := takeDigits dig cs; (d :: r.1, r.2)
    | none => ([], c :: cs)

/-- Value of a digit-value list in the given base. -/
def digitsVal (base : Nat) (ds : List Nat) : Nat :=
  ds.foldl (fun a d => a * base + d) 0

/-- Model of JavaScript whitespace trimming (used by `parseInt` and by the
`trim()` sanitizer of the validation chain). -/
def jsTrim (s : String) : String :=
  String.mk (((s.toList.dropWhile Char.isWhitespace).reverse.dropWhile
    Char.isWhitespace).reverse)

/-- Model of the JavaScript builtin `parseInt(s)` (radix argument omitted):
leading/trailing whitespace is irrelevant beyond the leading trim, an optional
sign is read, a `0x`/`0X` prefix switches to hexadecimal, then the longest
digit prefix is converted; no digits at all gives `NaN`, modelled as `none`.
Trailing garbage is ignored, so `parseInt("5.9") = 5`. -/
def parseIntJs (s : String) : Option Int :=
  let cs := (jsTrim s).toList
  let sc : Int × List Char :=
    match cs with
    | '-' :: r => (-1, r)
    | '+' :: r => (1, r)
    | _ => (1, cs)
  match sc.2 with
  | '0' :: 'x' :: r =>
    let ds := (takeDigits hexDigit r).1
    if ds.isEmpty then none else some (sc.1 * (digitsVal 16 ds : Nat))
  | '0' :: 'X' :: r =>
    let ds := (takeDigits hexDigit r).1
    if ds.isEmpty then none else some (sc.1 * (digitsVal 16 ds : Nat))
  | rest =>
    let ds := (takeDigits decDigit rest).1
    if ds.isEmpty then none else some (sc.1 * (digitsVal 10 ds : Nat))

/-- Model of the JavaScript builtin `parseFloat(s)`: optional sign, decimal
digits with an optional fractional part and an optional exponent, longest
valid prefix, trailing garbage ignored; no mantissa digits gives `NaN`
(modelled as `none`).  Values are exact rationals; the `Infinity` literal is
not modelled (no claim exercises it). -/
def parseFloatJs (s : String) : Option ℚ :=
  let cs := s.toList.dropWhile Char.isWhitespace
  let sc : Int × List Char :=
    match cs with
    | '-' :: r => (-1, r)
    | '+' :: r => (1, r)
    | _ => (1, cs)
  let intPart := takeDigits decDigit sc.2
  let fracPart : List Nat × List Char :=
    match intPart.2 with
    | '.' :: r => takeDigits decDigit r
    | rest => ([], rest)
  if intPart.1.isEmpty ∧ fracPart.1.isEmpty then none
  else
    let mantNum : Int :=
      digitsVal 10 intPart.1 * 10 ^ fracPart.1.length + digitsVal 10 fracPart.1
    let expVal : Int :=
      match fracPart.2 with
      | 'e' :: r =>
        let esc : Int × List Char :=
          match r with
          | '-' :: r2 => (-1, r2)
          | '+' :: r2 => (1, r2)
          | _ => (1, r)
        let eds := (takeDigits decDigit esc.2).1
        if eds.isEmpty then 0 else esc.1 * (digitsVal 10 eds : Nat)
      | 'E' :: r =>
        let esc : Int × List Char :=
          match r with
          | '-' :: r2 => (-1, r2)
          | '+' :: r2 => (1, r2)
          | _ => (1, r)
        let eds := (takeDigits decDigit esc.2).1
        if eds.isEmpty then 0 else esc.1 * (digitsVal 10 eds : Nat)
      | _ => 0
    some (Rat.divInt (sc.1 * mantNum * 10 ^ expVal.toNat)
      ((10 ^ fracPart.1.length) * 10 ^ (-expVal).toNat))

/-! ## Model of SQLite string matching (`LIKE`) -/

/-- Core of the SQLite `LIKE` matcher on character lists: `%` matches any
sequence of characters (the rest of the pattern must match some suffix of the
string), `_` matches exactly one character, any other pattern character
matches itself up to ASCII case folding — SQLite's default
case-insensitive collation. -/
def likeMatches : List Char → List Char → Bool
  | [], s => s.isEmpty
  | c :: p, s =>
    if c = '%' then
      s.tails.any (fun t => likeMatches p t)
    else
      match s with
      | [] => false
      | d :: s2 =>
        if c = '_' then likeMatches p s2
        else (Char.toLower c == Char.toLower d) && likeMatches p s2

/-- SQLite `expr LIKE pattern` for the default (ASCII case-insensitive)
collation. -/
def likeMatch (pattern s : String) : Bool :=
  likeMatches pattern.toList s.toList

/-- Case-insensitive (ASCII-folded) substring containment — the spec's
description of the city filter, for comparison with the `LIKE` behaviour of
the code. -/
def substrCI (v s : String) : Prop :=
  (v.toList.map Char.toLower) <:+: (s.toList.map Char.toLower)

instance (v s : String) : Decidable (substrCI v s) :=
  inferInstanceAs (Decidable (_ <:+: _))

/-! ## Data model (rows of the tables touched by the routes) -/

/-- A row of the `biens` table. -/
structure Bien where
  id : ℤ
  proprietaire_id : ℤ
  titre : String
  description : String
  type_bien : String
  statut : String
  prix : ℚ
  modalite_paiement : String
  surface : ℚ
  nombre_pieces : ℤ
  adresse_complete : String
  ville : String
  code_postal : String
  latitude : ℚ
  longitude : ℚ
  statut_publication : String
  date_publication : ℤ
deriving DecidableEq

/-- A row of the `utilisateurs` table (the columns the routes read). -/
structure Utilisateur where
  id : ℤ
  nom : String
  prenom : String
  telephone : String
  email : String
deriving DecidableEq

/-- A row of the `photos_biens` table (the columns the routes read). -/
structure PhotoBien where
  id : ℤ
  bien_id : ℤ
  url_image : String
  est_principale : ℤ
deriving DecidableEq

/-- The database state seen by the routes. -/
structure Db where
  biens : List Bien
  utilisateurs : List Utilisateur
  photos : List PhotoBien
deriving DecidableEq

/-! ## GET / — list endpoint: query construction (lines 52–160) -/

/-- The destructured `req.query` of the list endpoint: each recognised
query-string parameter is an optional string. -/
structure ListFilters where
  ville : Option String := none
  type_bien : Option String := none
  statut : Option String := none
  prix_min : Option String := none
  prix_max : Option String := none
  surface_min : Option String := none
  nombre_pieces_min : Option String := none
  page : Option String := none
  limit : Option String := none
deriving DecidableEq

/-- JavaScript truthiness of an optional query-string value: absent
(`undefined`) and the empty string are falsy, every other string is truthy. -/
def truthy : Option String → Bool
  | none => false
  | some s => !s.isEmpty

/-- A positional bound parameter of a query: a string, a (decimal-exact)
number, or `NaN` (which SQLite receives as `NULL`). -/
inductive SqlParam where
  | str (v : String)
  | num (q : ℚ)
  | nan
deriving DecidableEq

/-- The JS number produced by `parseFloat` as a bound parameter. -/
def numParam (o : Option ℚ) : SqlParam :=
  match o with
  | some q => .num q
  | none => .nan

/-- The JS number produced by `parseInt` as a bound parameter. -/
def intParam (o : Option Int) : SqlParam :=
  match o with
  | some n => .num (n : ℚ)
  | none => .nan

/-- `whereConditions` of the list endpoint: the base published-only predicate
followed by one condition fragment per truthy filter, in source order
(lines 67–97). -/
def whereConditions (f : ListFilters) : List String :=
  ["b.statut_publication = ?"]
  ++ (if truthy f.ville then ["b.ville LIKE ?"] else [])
  ++ (if truthy f.type_bien then ["b.type_bien = ?"] else [])
  ++ (if truthy f.statut then ["b.statut = ?"] else [])
  ++ (if truthy f.prix_min then ["b.prix >= ?"] else [])
  ++ (if truthy f.prix_max then ["b.prix <= ?"] else [])
  ++ (if truthy f.surface_min then ["b.surface >= ?"] else [])
  ++ (if truthy f.nombre_pieces_min then ["b.nombre_pieces >= ?"] else [])

/-- `queryParams` of the list endpoint: the values bound positionally to the
`?` placeholders of `whereConditions`, in the same source order; the city
value is wrapped in `%` wildcards, numeric filters go through
`parseFloat`/`parseInt` (lines 67–97). -/
def queryParams (f : ListFilters) : List SqlParam :=
  [SqlParam.str "publie"]
  ++ (if truthy f.ville then [SqlParam.str ("%" ++ f.ville.getD "" ++ "%")] else [])
  ++ (if truthy f.type_bien then [SqlParam.str (f.type_bien.getD "")] else [])
  ++ (if truthy f.statut then [SqlParam.str (f.statut.getD "")] else [])
  ++ (if truthy f.prix_min then [numParam (parseFloatJs (f.prix_min.getD ""))] else [])
  ++ (if truthy f.prix_max then [numParam (parseFloatJs (f.prix_max.getD ""))] else [])
  ++ (if truthy f.surface_min then [numParam (parseFloatJs (f.surface_min.getD ""))] else [])
  ++ (if truthy f.nombre_pieces_min then [intParam (parseIntJs (f.nombre_pieces_min.getD ""))] else [])

/-- `whereConditions.join(' AND ')` (line 99). -/
def whereClause (f : ListFilters) : String :=
  String.intercalate " AND " (whereConditions f)

/-- The SQL text of the count query (lines 103–107), exactly as the template
literal produces it. -/
def countQueryText (f : ListFilters) : String :=
  "\n      SELECT COUNT(*) as total\n      FROM biens b\n      WHERE "
    ++ whereClause f ++ "\n    "

/-- The SQL text of the main query (lines 117–129), exactly as the template
literal produces it. -/
def mainQueryText (f : ListFilters) : String :=
  "\n      SELECT\n        b.*,\n        u.nom as proprietaire_nom,\n        u.prenom as proprietaire_prenom,\n        u.telephone as proprietaire_telephone,\n        (SELECT url_image FROM photos_biens WHERE bien_id = b.id AND est_principale = 1 LIMIT 1) as photo_principale\n      FROM biens b\n      JOIN utilisateurs u ON b.proprietaire_id = u.id\n      WHERE "
    ++ whereClause f
    ++ "\n      ORDER BY b.date_publication DESC\n      LIMIT ? OFFSET ?\n    "

/-- Which of the seven recognised filters are (truthily) present. -/
def presencePattern (f : ListFilters) : List Bool :=
  [truthy f.ville, truthy f.type_bien, truthy f.statut, truthy f.prix_min,
   truthy f.prix_max, truthy f.surface_min, truthy f.nombre_pieces_min]

/-- Following the spec's words on bound parameters: the parameter list is the
base value `publie` followed by, for each present filter in order, exactly its
value — the city value wrapped in `%` wildcards, the numeric values coerced
to numbers.  Used to compare against the code-derived `queryParams`. -/
def specBoundParams (f : ListFilters) : List SqlParam :=
  SqlParam.str "publie" ::
    (List.flatten
      [(if truthy f.ville then [SqlParam.str ("%" ++ f.ville.getD "" ++ "%")] else []),
       (if truthy f.type_bien then [SqlParam.str (f.type_bien.getD "")] else []),
       (if truthy f.statut then [SqlParam.str (f.statut.getD "")] else []),
       (if truthy f.prix_min then [numParam (parseFloatJs (f.prix_min.getD ""))] else []),
       (if truthy f.prix_max then [numParam (parseFloatJs (f.prix_max.getD ""))] else []),
       (if truthy f.surface_min then [numParam (parseFloatJs (f.surface_min.getD ""))] else []),
       (if truthy f.nombre_pieces_min then [intParam (parseIntJs (f.nombre_pieces_min.getD ""))] else [])])

/-- SQL `col >= ?` with a possibly-`NaN` bound: `NaN` binds as `NULL` and
never compares true. -/
def numGe (x : ℚ) : Option ℚ → Bool
  | some q => decide (q ≤ x)
  | none => false

/-- SQL `col <= ?` with a possibly-`NaN` bound. -/
def numLeQ (x : ℚ) : Option ℚ → Bool
  | some q => decide (x ≤ q)
  | none => false

/-- SQL `col >= ?` on an integer column with a possibly-`NaN` integer bound
(compared as SQL numbers). -/
def intGeQ (n : ℤ) : Option ℤ → Bool
  | some m => decide ((m : ℚ) ≤ (n : ℚ))
  | none => false

/-- Following the spec's words on the `WHERE` clause: the mandatory
published-only base predicate, conjoined with exactly one predicate per
present filter (city: case-insensitive substring via `LIKE` wildcards;
category/listing kind: exact equality; numbers: inequality bounds); absent
filters contribute nothing.  Used to compare against the code-derived
`rowMatches`. -/
def specMatches (f : ListFilters) (b : Bien) : Bool :=
  (b.statut_publication == "publie")
  && (if truthy f.ville then likeMatch ("%" ++ f.ville.getD "" ++ "%") b.ville else true)
  && (if truthy f.type_bien then b.type_bien == f.type_bien.getD "" else true)
  && (if truthy f.statut then b.statut == f.statut.getD "" else true)
  && (if truthy f.prix_min then numGe b.prix (parseFloatJs (f.prix_min.getD "")) else true)
  && (if truthy f.prix_max then numLeQ b.prix (parseFloatJs (f.prix_max.getD "")) else true)
  && (if truthy f.surface_min then numGe b.surface (parseFloatJs (f.surface_min.getD "")) else true)
  && (if truthy f.nombre_pieces_min then intGeQ b.nombre_pieces (parseIntJs (f.nombre_pieces_min.getD "")) else true)

/-- Number of (truthily) present filters. -/
def numPresent (f : ListFilters) : ℕ :=
  (presencePattern f).count true

/-! ## SQLite semantics of the generated list query -/

/-- SQLite evaluation of one generated condition fragment against its
positional bound parameter, on a row `b` of `biens`.  Only the fragments the
route can generate are recognised; a `NaN` parameter is received by SQLite as
`NULL`, and a comparison with `NULL` is never satisfied, hence the catch-all
`false`. -/
def evalCond (b : Bien) : String × SqlParam → Bool
  | ("b.statut_publication = ?", .str v) => b.statut_publication == v
  | ("b.ville LIKE ?", .str v) => likeMatch v b.ville
  | ("b.type_bien = ?", .str v) => b.type_bien == v
  | ("b.statut = ?", .str v) => b.statut == v
  | ("b.prix >= ?", .num q) => decide (q ≤ b.prix)
  | ("b.prix <= ?", .num q) => decide (b.prix ≤ q)
  | ("b.surface >= ?", .num q) => decide (q ≤ b.surface)
  | ("b.nombre_pieces >= ?", .num q) => decide (q ≤ (b.nombre_pieces : ℚ))
  | (_, _) => false

/-- A row of `biens` satisfies the generated `WHERE` clause: every condition
fragment, paired positionally with its bound parameter, holds. -/
def rowMatches (f : ListFilters) (b : Bien) : Bool :=
  ((whereConditions f).zip (queryParams f)).all (evalCond b)

/-- Result of the count query (lines 103–109): the number of `biens` rows
satisfying the `WHERE` clause. -/
def countTotal (f : ListFilters) (db : Db) : ℕ :=
  (db.biens.filter (fun b => rowMatches f b)).length

/-- The correlated subquery computing `photo_principale` for a row `b`:
first photo of the bien flagged as principal (`LIMIT 1`, table order). -/
def photoPrincipale (db : Db) (b : Bien) : Option String :=
  ((db.photos.filter (fun p => p.bien_id == b.id && p.est_principale == 1)).map
    (fun p => p.url_image)).head?

/-- A row produced by the main query of the list endpoint. -/
structure ListRow where
  bien : Bien
  proprietaire_nom : String
  proprietaire_prenom : String
  proprietaire_telephone : String
  photo_principale : Option String
deriving DecidableEq

/-- One joined output row. -/
def mkListRow (db : Db) (b : Bien) (u : Utilisateur) : ListRow :=
  { bien := b
    proprietaire_nom := u.nom
    proprietaire_prenom := u.prenom
    proprietaire_telephone := u.telephone
    photo_principale := photoPrincipale db b }

/-- `FROM biens b JOIN utilisateurs u ON b.proprietaire_id = u.id`: the inner
join, enumerated bien-major. -/
def joinRows (db : Db) : List ListRow :=
  db.biens.flatMap (fun b =>
    (db.utilisateurs.filter (fun u => u.id == b.proprietaire_id)).map
      (fun u => mkListRow db b u))

/-- Stable insertion of an element into a list sorted by `le`. -/
def insertLe (le : α → α → Bool) (x : α) : List α → List α
  | [] => [x]
  | y :: ys => if le x y then x :: y :: ys else y :: insertLe le x ys

/-- Stable insertion sort, modelling a SQL `ORDER BY` (deterministic model:
rows that compare equal keep their pre-sort relative order). -/
def sortLe (le : α → α → Bool) (l : List α) : List α :=
  l.foldr (insertLe le) []

/-- Descending publication-date order used by `ORDER BY b.date_publication
DESC` (stable on ties). -/
def rowLe (r1 r2 : ListRow) : Bool :=
  r2.bien.date_publication ≤ r1.bien.date_publication

/-- The full ordered result of the main query before `LIMIT`/`OFFSET` is
applied: join, filter by the `WHERE` clause, order by publication date
descending. -/
def mainRowsAll (f : ListFilters) (db : Db) : List ListRow :=
  sortLe rowLe ((joinRows db).filter (fun r => rowMatches f r.bien))

/-- SQLite `LIMIT l`: a negative limit means no limit. -/
def jsTake (l : ℤ) (xs : List ListRow) : List ListRow :=
  if l < 0 then xs else xs.take l.toNat

/-- SQLite `OFFSET o`: a negative offset behaves like 0. -/
def jsDrop (o : ℤ) (xs : List ListRow) : List ListRow :=
  xs.drop o.toNat

/-- Ceiling of a rational (`Math.ceil` on an exact value). -/
def ceilQ (q : ℚ) : ℤ :=
  -(Rat.floor (-q))

/-- `parseInt(page)` after the destructuring default `page = 1`
(lines 62, 100, 137). -/
def parsedPage (f : ListFilters) : Option Int :=
  match f.page with
  | none => some 1
  | some s => parseIntJs s

/-- `parseInt(limit)` after the destructuring default `limit = 20`
(lines 63, 100, 131, 138). -/
def parsedLimit (f : ListFilters) : Option Int :=
  match f.limit with
  | none => some 20
  | some s => parseIntJs s

/-- The JSON body of a successful list response (lines 133–151):
`pagination.page`/`.limit`/`.pages` are JS numbers, `none` standing for the
`NaN`/`Infinity` values that `res.json` serialises as `null`. -/
structure ListResponse where
  biens : List ListRow
  total : ℕ
  page : Option ℤ
  limit : Option ℤ
  pages : Option ℤ
  filters : ListFilters
deriving DecidableEq

/-- Outcome of the list endpoint: a 200 JSON body, or the 500 response of the
catch-block (lines 153–159). -/
inductive ListOutcome where
  | ok (resp : ListResponse)
  | serverError (error message : String)
deriving DecidableEq

/-- `GET /api/biens` (lines 52–160).  When `parseInt(page)` or
`parseInt(limit)` is `NaN`, the computed `LIMIT`/`OFFSET` bind as `NULL`,
SQLite raises a datatype mismatch, and the catch-block answers 500; otherwise
the filtered, ordered rows are paginated with `LIMIT limit OFFSET
(page-1)*limit` and `pages = Math.ceil(total / limit)` (`none` when that
quotient is `NaN`/`Infinity`, i.e. when `limit = 0`). -/
def listEndpoint (f : ListFilters) (db : Db) : ListOutcome :=
  match parsedPage f, parsedLimit f with
  | some p, some l =>
    ListOutcome.ok
      { biens := jsTake l (jsDrop ((p - 1) * l) (mainRowsAll f db))
        total := countTotal f db
        page := some p
        limit := some l
        pages := if l = 0 then none else some (ceilQ (Rat.divInt (countTotal f db : ℤ) l))
        filters := f }
  | _, _ =>
    ListOutcome.serverError "Erreur serveur" "Erreur lors de la récupération des biens"

/-- The response components the list endpoint derives from the database and
the applied predicates (everything except the verbatim `filters` echo). -/
def respCore (o : ListOutcome) :
    Option (List ListRow × ℕ × Option ℤ × Option ℤ × Option ℤ) :=
  match o with
  | .ok r => some (r.biens, r.total, r.page, r.limit, r.pages)
  | .serverError _ _ => none

/-! ## GET /:id — detail endpoint (lines 163–216) -/

/-- A row produced by the detail query (bien joined with its owner). -/
structure DetailRow where
  bien : Bien
  proprietaire_nom : String
  proprietaire_prenom : String
  proprietaire_telephone : String
  proprietaire_email : String
deriving DecidableEq

/-- One joined detail row. -/
def mkDetailRow (b : Bien) (u : Utilisateur) : DetailRow :=
  { bien := b
    proprietaire_nom := u.nom
    proprietaire_prenom := u.prenom
    proprietaire_telephone := u.telephone
    proprietaire_email := u.email }

/-- Ordering of the photo query: `ORDER BY est_principale DESC, id ASC`. -/
def photoLe (p1 p2 : PhotoBien) : Bool :=
  p2.est_principale < p1.est_principale ||
    (p1.est_principale == p2.est_principale && p1.id ≤ p2.id)

/-- The photos returned for a bien (lines 199–202). -/
def photosOf (db : Db) (bienId : ℤ) : List PhotoBien :=
  sortLe photoLe (db.photos.filter (fun p => p.bien_id == bienId))

/-- Outcome of the detail endpoint. -/
inductive DetailOutcome where
  | badRequest (error message : String)
  | notFound (error message : String)
  | ok (bien : DetailRow) (photos : List PhotoBien)
  | serverError (error message : String)
deriving DecidableEq

/-- `GET /api/biens/:id` (lines 163–216): `parseInt` the path parameter
(`NaN` or a non-positive result gives 400 — the `Number.isInteger` test of
line 169 can never fail after `parseInt` and adds nothing), then fetch the
published bien joined with its owner (404 when none), plus its photos. -/
def getBienDetail (idParam : String) (db : Db) : DetailOutcome :=
  match parseIntJs idParam with
  | none =>
    .badRequest "ID invalide" "L\x27ID du bien doit être un nombre entier positif"
  | some n =>
    if n ≤ 0 then
      .badRequest "ID invalide" "L\x27ID du bien doit être un nombre entier positif"
    else
      match (db.biens.flatMap (fun b =>
        (db.utilisateurs.filter (fun u => u.id == b.proprietaire_id)).map
          (fun u => mkDetailRow b u))).filter
            (fun r => r.bien.id == n && r.bien.statut_publication == "publie") with
      | [] => .notFound "Bien non trouvé" "Le bien demandé n\x27existe pas ou n\x27est pas publié"
      | r :: _ => .ok r (photosOf db n)

/-! ## Validation chain `bienValidation` (lines 9–23) -/

/-- The JSON body consumed by the create and update endpoints, with numeric
fields already carried as JSON numbers (express-validator stringifies them
before running validator.js checks; the model applies the checks to the
numeric value directly, which is equivalent for decimal numerals). -/
structure CreateBody where
  titre : String
  description : String
  type_bien : String
  statut : String
  prix : ℚ
  modalite_paiement : String
  surface : ℚ
  nombre_pieces : ℤ
  adresse_complete : String
  ville : String
  code_postal : String
  latitude : ℚ
  longitude : ℚ
deriving DecidableEq

/-- The `.trim()` sanitizers of the validation chain mutate `req.body` before
the handler reads it: the five text fields with a `trim()` step are stored
trimmed. -/
def sanitizeBien (b : CreateBody) : CreateBody :=
  { b with
    titre := jsTrim b.titre
    description := jsTrim b.description
    adresse_complete := jsTrim b.adresse_complete
    ville := jsTrim b.ville
    code_postal := jsTrim b.code_postal }

/-- `isLength({ min, max })` on a string. -/
def lenOk (lo hi : ℕ) (s : String) : Bool :=
  lo ≤ s.length && s.length ≤ hi

/-- One itemized validation failure as reported by `errors.array()`
(the field path and its `withMessage` text). -/
structure ValError where
  field : String
  msg : String
deriving DecidableEq

/-- The thirteen validators of `bienValidation`, in source order: field path,
failure message, and the predicate the (sanitized) value must satisfy. -/
def bienRules : List (String × String × (CreateBody → Bool)) :=
  [("titre", "Le titre doit contenir entre 5 et 150 caractères",
      fun b => lenOk 5 150 b.titre),
   ("description", "La description doit contenir entre 20 et 2000 caractères",
      fun b => lenOk 20 2000 b.description),
   ("type_bien", "Type de bien invalide",
      fun b => b.type_bien ∈ ["maison", "immeuble", "villa", "appartement", "terrain"]),
   ("statut", "Statut invalide (location ou vente)",
      fun b => b.statut ∈ ["location", "vente"]),
   ("prix", "Le prix doit être un nombre positif supérieur à 0",
      fun b => mkRat 1 100 ≤ b.prix),
   ("modalite_paiement", "Modalité de paiement invalide",
      fun b => b.modalite_paiement ∈ ["mensuel", "trimestriel", "annuel", "unique"]),
   ("surface", "La surface doit être un nombre positif supérieur à 0",
      fun b => mkRat 1 100 ≤ b.surface),
   ("nombre_pieces", "Le nombre de pièces doit être un entier positif ou nul",
      fun b => 0 ≤ b.nombre_pieces),
   ("adresse_complete", "L\x27adresse doit contenir entre 10 et 255 caractères",
      fun b => lenOk 10 255 b.adresse_complete),
   ("ville", "La ville doit contenir entre 2 et 100 caractères",
      fun b => lenOk 2 100 b.ville),
   ("code_postal", "Le code postal doit contenir entre 4 et 20 caractères",
      fun b => lenOk 4 20 b.code_postal),
   ("latitude", "Latitude invalide",
      fun b => -90 ≤ b.latitude && b.latitude ≤ 90),
   ("longitude", "Longitude invalide",
      fun b => -180 ≤ b.longitude && b.longitude ≤ 180)]

/-- `validationResult(req).array()`: the failures of the thirteen validators,
in source order, applied to the sanitized body. -/
def bienValidationErrors (b : CreateBody) : List ValError :=
  (bienRules.filter (fun r => !r.2.2 b)).map (fun r => ⟨r.1, r.2.1⟩)

/-! ## POST / — create endpoint (lines 219–276) -/

/-- Column defaults the `INSERT` statement does not set; the table schema
(`config/database-sqlite`) is not part of the sources, so these stay
abstract parameters of the model. -/
structure NewDefaults where
  statut_publication : String
  date_publication : ℤ

/-- Model of SQLite rowid allocation for the `INSERT` (`result.insertId`). -/
def nextBienId (db : Db) : ℤ :=
  (db.biens.map (fun b => b.id)).foldr max 0 + 1

/-- The row the `INSERT` of lines 242–252 creates: `proprietaire_id` is the
authenticated caller, the thirteen body fields are bound parameters, the
remaining columns take their schema defaults. -/
def insertedBien (d : NewDefaults) (uid : ℤ) (b : CreateBody) (newId : ℤ) : Bien :=
  { id := newId
    proprietaire_id := uid
    titre := b.titre
    description := b.description
    type_bien := b.type_bien
    statut := b.statut
    prix := b.prix
    modalite_paiement := b.modalite_paiement
    surface := b.surface
    nombre_pieces := b.nombre_pieces
    adresse_complete := b.adresse_complete
    ville := b.ville
    code_postal := b.code_postal
    latitude := b.latitude
    longitude := b.longitude
    statut_publication := d.statut_publication
    date_publication := d.date_publication }

/-- Outcome of the create endpoint: 400 with itemized details, or 201 with
the re-read row. -/
inductive CreateOutcome where
  | invalid (details : List ValError)
  | created (bien : Option Bien)
deriving DecidableEq

/-- `POST /api/biens` (lines 219–276): when any validator failed, answer 400
with the itemized errors and leave the store untouched; otherwise insert the
(sanitized) body for the authenticated seller and answer 201 with the re-read
row. -/
def createBien (d : NewDefaults) (uid : ℤ) (raw : CreateBody) (db : Db) :
    CreateOutcome × Db :=
  let body := sanitizeBien raw
  let errs := bienValidationErrors body
  if errs.isEmpty then
    let newId := nextBienId db
    let db2 : Db := { db with biens := db.biens ++ [insertedBien d uid body newId] }
    (.created ((db2.biens.filter (fun x => x.id == newId)).head?), db2)
  else
    (.invalid errs, db)

/-! ## PUT /:id — update endpoint (lines 279–332) -/

/-- The `UPDATE biens SET … WHERE id = ?` of lines 301–311: exactly the
thirteen listed columns are replaced on a matching row; every other column of
the row keeps its value. -/
def applyBienUpdate (b : CreateBody) (r : Bien) : Bien :=
  { r with
    titre := b.titre
    description := b.description
    type_bien := b.type_bien
    statut := b.statut
    prix := b.prix
    modalite_paiement := b.modalite_paiement
    surface := b.surface
    nombre_pieces := b.nombre_pieces
    adresse_complete := b.adresse_complete
    ville := b.ville
    code_postal := b.code_postal
    latitude := b.latitude
    longitude := b.longitude }

/-- Outcome of the update endpoint: 400 with itemized details, or 200 with
the re-read row. -/
inductive UpdateOutcome where
  | invalid (details : List ValError)
  | updated (bien : Option Bien)
deriving DecidableEq

/-- `PUT /api/biens/:id` (lines 279–332), after the external
`authenticateToken`/`requireOwnership` middlewares admitted the caller (the
route's `WHERE id = ?` receives the same identifier the ownership middleware
resolved, modelled as an integer via SQLite column affinity): when any
validator failed, answer 400 and leave the store untouched; otherwise replace
the thirteen mutable columns of every row with that id and answer 200 with
the re-read row. -/
def putBien (bienId : ℤ) (raw : CreateBody) (db : Db) : UpdateOutcome × Db :=
  let body := sanitizeBien raw
  let errs := bienValidationErrors body
  if errs.isEmpty then
    let db2 : Db :=
      { db with biens := db.biens.map (fun r => if r.id == bienId then applyBienUpdate body r else r) }
    (.updated ((db2.biens.filter (fun x => x.id == bienId)).head?), db2)
  else
    (.invalid errs, db)

/-! ## Sample data for concrete instances -/

/-- No query-string parameters at all. -/
def fNone : ListFilters := {}

/-- A sample seller. -/
def user1 : Utilisateur :=
  { id := 1
    nom := "Dupont"
    prenom := "Anna"
    telephone := "0102030405"
    email := "anna@example.com" }

/-- A sample published bien owned by `user1`. -/
def bien1 : Bien :=
  { id := 1
    proprietaire_id := 1
    titre := "Appartement lumineux proche centre"
    description := "Bel appartement de trois pièces avec balcon et cave."
    type_bien := "appartement"
    statut := "location"
    prix := 500
    modalite_paiement := "mensuel"
    surface := 45
    nombre_pieces := 3
    adresse_complete := "12 rue de la Paix, Paris"
    ville := "Paris"
    code_postal := "75001"
    latitude := 48
    longitude := 2
    statut_publication := "publie"
    date_publication := 100 }

/-- A one-bien store with intact owner reference. -/
def db1 : Db :=
  { biens := [bien1], utilisateurs := [user1], photos := [] }

/-- A published bien whose `proprietaire_id` (99) matches no user row. -/
def bienOrphan : Bien :=
  { bien1 with id := 2, proprietaire_id := 99 }

/-- A store violating the owner reference: one published bien, no users. -/
def dbOrphan : Db :=
  { biens := [bienOrphan], utilisateurs := [], photos := [] }

/-- A store containing the published bien with id 5. -/
def db5 : Db :=
  { biens := [{ bien1 with id := 5 }], utilisateurs := [user1], photos := [] }

/-- Query parameters requesting the second page of ten. -/
def fPage2 : ListFilters := { page := some "2", limit := some "10" }

/-- The response of `listEndpoint fPage2 db1` (one matching row, beyond the
requested window). -/
def respPage2 : ListResponse :=
  { biens := [], total := 1, page := some 2, limit := some 10,
    pages := some 1, filters := fPage2 }

/-- Arbitrary schema defaults for concrete instances (the schema itself is
outside the sources, and no claim depends on these two values). -/
def defaultsSample : NewDefaults :=
  { statut_publication := "publie", date_publication := 200 }

/-- A valid request body whose `titre` carries surrounding whitespace. -/
def bodyPadded : CreateBody :=
  { titre := "  Superbe appartement T3  "
    description := "Bel appartement de trois pièces avec balcon et cave."
    type_bien := "appartement"
    statut := "location"
    prix := 500
    modalite_paiement := "mensuel"
    surface := 45
    nombre_pieces := 3
    adresse_complete := "12 rue de la Paix, Paris"
    ville := "Paris"
    code_postal := "75001"
    latitude := 48
    longitude := 2 }

/-! ## Helper lemmas -/

theorem sortLe_cons {α : Type _} (le : α → α → Bool) (y : α) (ys : List α) :
    sortLe le (y :: ys) = insertLe le y (sortLe le ys) := rfl

theorem mem_insertLe {α : Type _} {le : α → α → Bool} {x a : α} {l : List α} :
    a ∈ insertLe le x l ↔ a = x ∨ a ∈ l := by
  induction l with
  | nil => simp [insertLe]
  | cons y ys ih =>
    simp only [insertLe]
    split
    · simp
    · simp [ih]
      tauto

theorem mem_sortLe {α : Type _} {le : α → α → Bool} {a : α} {l : List α} :
    a ∈ sortLe le l ↔ a ∈ l := by
  induction l with
  | nil => simp [sortLe]
  | cons y ys ih =>
    rw [sortLe_cons, mem_insertLe, ih]
    simp

theorem length_insertLe {α : Type _} (le : α → α → Bool) (x : α) (l : List α) :
    (insertLe le x l).length = l.length + 1 := by
  induction l with
  | nil => simp [insertLe]
  | cons y ys ih =>
    simp only [insertLe]
    split <;> simp [ih]

theorem length_sortLe {α : Type _} (le : α → α → Bool) (l : List α) :
    (sortLe le l).length = l.length := by
  induction l with
  | nil => simp [sortLe]
  | cons y ys ih =>
    rw [sortLe_cons, length_insertLe, ih]
    simp

theorem evalCond_base (b : Bien) (v : String) :
    evalCond b ("b.statut_publication = ?", .str v) = (b.statut_publication == v) := rfl

theorem evalCond_ville (b : Bien) (v : String) :
    evalCond b ("b.ville LIKE ?", .str v) = likeMatch v b.ville := rfl

theorem evalCond_type_bien (b : Bien) (v : String) :
    evalCond b ("b.type_bien = ?", .str v) = (b.type_bien == v) := rfl

theorem evalCond_statut (b : Bien) (v : String) :
    evalCond b ("b.statut = ?", .str v) = (b.statut == v) := rfl

theorem evalCond_prix_ge (b : Bien) (q : ℚ) :
    evalCond b ("b.prix >= ?", .num q) = decide (q ≤ b.prix) := rfl

theorem evalCond_prix_le (b : Bien) (q : ℚ) :
    evalCond b ("b.prix <= ?", .num q) = decide (b.prix ≤ q) := rfl

theorem evalCond_surface_ge (b : Bien) (q : ℚ) :
    evalCond b ("b.surface >= ?", .num q) = decide (q ≤ b.surface) := rfl

theorem evalCond_pieces_ge (b : Bien) (q : ℚ) :
    evalCond b ("b.nombre_pieces >= ?", .num q) = decide (q ≤ (b.nombre_pieces : ℚ)) := rfl

/-- A row passing the generated `WHERE` clause satisfies the base
published-only predicate. -/
theorem rowMatches_published {f : ListFilters} {b : Bien}
    (h : rowMatches f b = true) : b.statut_publication = "publie" := by
  have h1 : (b.statut_publication == "publie") = true := by
    have h2 : (evalCond b ("b.statut_publication = ?", .str "publie")
        && (((whereConditions f).tail).zip ((queryParams f).tail)).all (evalCond b)) = true := h
    exact (Bool.and_eq_true_iff.mp h2).1
  exact (beq_iff_eq.mp h1)

theorem evalCond_numGe_prix (b : Bien) (o : Option ℚ) :
    evalCond b ("b.prix >= ?", numParam o) = numGe b.prix o := by
  cases o <;> rfl

theorem evalCond_numLe_prix (b : Bien) (o : Option ℚ) :
    evalCond b ("b.prix <= ?", numParam o) = numLeQ b.prix o := by
  cases o <;> rfl

theorem evalCond_numGe_surface (b : Bien) (o : Option ℚ) :
    evalCond b ("b.surface >= ?", numParam o) = numGe b.surface o := by
  cases o <;> rfl

theorem evalCond_intGe_pieces (b : Bien) (o : Option Int) :
    evalCond b ("b.nombre_pieces >= ?", intParam o) = intGeQ b.nombre_pieces o := by
  cases o <;> rfl

/-- Every row the list endpoint returns came through `mainRowsAll` and hence
satisfies the generated `WHERE` clause. -/
theorem listEndpoint_rowMatches {f : ListFilters} {db : Db} {resp : ListResponse}
    (hok : listEndpoint f db = .ok resp) :
    ∀ r ∈ resp.biens, rowMatches f r.bien = true := by
  intro r hr
  rcases hp : parsedPage f with _ | p
  · simp [listEndpoint, hp] at hok
  rcases hl : parsedLimit f with _ | l
  · simp [listEndpoint, hp, hl] at hok
  have hresp : resp.biens = jsTake l (jsDrop ((p - 1) * l) (mainRowsAll f db)) := by
    simp [listEndpoint, hp, hl] at hok
    rw [← hok]
  rw [hresp] at hr
  have hr2 : r ∈ jsDrop ((p - 1) * l) (mainRowsAll f db) := by
    revert hr
    unfold jsTake
    split
    · exact fun hr => hr
    · exact fun hr => List.take_subset _ _ hr
  have hr3 : r ∈ mainRowsAll f db := List.drop_subset _ _ hr2
  have hr4 : r ∈ (joinRows db).filter (fun r => rowMatches f r.bien) :=
    mem_sortLe.mp hr3
  exact (List.mem_filter.mp hr4).2

/-! ## Claims -/

/-- Claim C1: for every combination of caller-supplied filter values on the
public list endpoint, the SQL text of the generated count query and main
query depends only on which filters are present, never on their values; every
filter value appears only in the bound-parameter list (the city value wrapped
in `%` wildcards), never concatenated into the SQL string. -/
theorem sql_text_depends_only_on_presence (f g : ListFilters)
    (h : presencePattern f = presencePattern g) :
    (countQueryText f = countQueryText g ∧ mainQueryText f = mainQueryText g)
    ∧ queryParams f = specBoundParams f := by
  have hl : truthy f.ville = truthy g.ville ∧ truthy f.type_bien = truthy g.type_bien ∧
      truthy f.statut = truthy g.statut ∧ truthy f.prix_min = truthy g.prix_min ∧
      truthy f.prix_max = truthy g.prix_max ∧ truthy f.surface_min = truthy g.surface_min ∧
      truthy f.nombre_pieces_min = truthy g.nombre_pieces_min := by
    simpa [presencePattern] using h
  obtain ⟨e1, e2, e3, e4, e5, e6, e7⟩ := hl
  refine ⟨⟨?_, ?_⟩, ?_⟩
  · simp [countQueryText, whereClause, whereConditions, e1, e2, e3, e4, e5, e6, e7]
  · simp [mainQueryText, whereClause, whereConditions, e1, e2, e3, e4, e5, e6, e7]
  · simp [queryParams, specBoundParams]

/-- Concrete instance of C1: two filter sets with the same presence pattern
but different values (one of them injection-shaped) generate identical SQL
text. -/
theorem sql_text_depends_only_on_presence_witness :
    (countQueryText { ville := some "Paris", prix_min := some "100" } =
      countQueryText { ville := some "x; DROP TABLE biens --", prix_min := some "999999" })
    ∧ mainQueryText { ville := some "Paris", prix_min := some "100" } =
      mainQueryText { ville := some "x; DROP TABLE biens --", prix_min := some "999999" } :=
  (sql_text_depends_only_on_presence
    { ville := some "Paris", prix_min := some "100" }
    { ville := some "x; DROP TABLE biens --", prix_min := some "999999" } (by decide)).1

/-- Claim C3: every property record returned by the public list endpoint and
the public detail endpoint has `statut_publication = 'publie'`; the
published-only base predicate is always the first conjunct and no caller
input can remove it. -/
theorem public_endpoints_published_only :
    (∀ (f : ListFilters) (db : Db) (resp : ListResponse), listEndpoint f db = .ok resp →
      ∀ r ∈ resp.biens, r.bien.statut_publication = "publie")
    ∧ (∀ (s : String) (db : Db) (r : DetailRow) (ph : List PhotoBien),
        getBienDetail s db = .ok r ph → r.bien.statut_publication = "publie")
    ∧ ∀ f : ListFilters, (whereConditions f).head? = some "b.statut_publication = ?"
        ∧ (queryParams f).head? = some (.str "publie") := by
  refine ⟨?_, ?_, ?_⟩
  · intro f db resp hok r hr
    exact rowMatches_published (listEndpoint_rowMatches hok r hr)
  · intro s db r ph h
    rcases hn : parseIntJs s with _ | n
    · simp [getBienDetail, hn] at h
    by_cases hle : n ≤ 0
    · simp [getBienDetail, hn, hle] at h
    rcases hrows : (db.biens.flatMap (fun b =>
        (db.utilisateurs.filter (fun u => u.id == b.proprietaire_id)).map
          (fun u => mkDetailRow b u))).filter
            (fun r => r.bien.id == n && r.bien.statut_publication == "publie")
      with _ | ⟨r0, rest⟩
    · simp [getBienDetail, hn, hle, hrows] at h
    · have hr0 : r0 = r := by
        simp [getBienDetail, hn, hle, hrows] at h
        exact h.1
      have hmem : r0 ∈ (db.biens.flatMap (fun b =>
          (db.utilisateurs.filter (fun u => u.id == b.proprietaire_id)).map
            (fun u => mkDetailRow b u))).filter
              (fun r => r.bien.id == n && r.bien.statut_publication == "publie") := by
        rw [hrows]
        exact List.mem_cons_self r0 rest
      have hpred := (List.mem_filter.mp hmem).2
      have := (Bool.and_eq_true_iff.mp hpred).2
      rw [← hr0]
      exact beq_iff_eq.mp this
  · intro f
    exact ⟨rfl, rfl⟩

/-- Concrete instance of C3: the row returned for an unfiltered listing of a
one-bien store is published. -/
theorem public_endpoints_published_only_witness :
    (mkListRow db1 bien1 user1).bien.statut_publication = "publie" :=
  public_endpoints_published_only.1 fNone db1
    { biens := [mkListRow db1 bien1 user1], total := 1, page := some 1, limit := some 20,
      pages := some 1, filters := fNone } (by decide) (mkListRow db1 bien1 user1) (by decide)

/-- Claim C5: the `WHERE` clause consists of exactly the published-only base
predicate plus one conjunct (combined by logical AND) per present filter;
absent filters contribute nothing. -/
theorem where_clause_base_plus_one_conjunct_per_filter (f : ListFilters) (b : Bien) :
    rowMatches f b = specMatches f b
    ∧ (whereConditions f).length = 1 + numPresent f := by
  constructor
  · cases h1 : truthy f.ville <;> cases h2 : truthy f.type_bien <;> cases h3 : truthy f.statut <;>
      cases h4 : truthy f.prix_min <;> cases h5 : truthy f.prix_max <;>
      cases h6 : truthy f.surface_min <;> cases h7 : truthy f.nombre_pieces_min <;>
      simp [rowMatches, specMatches, whereConditions, queryParams, h1, h2, h3, h4, h5, h6, h7,
        evalCond_base, evalCond_ville, evalCond_type_bien, evalCond_statut,
        evalCond_numGe_prix, evalCond_numLe_prix, evalCond_numGe_surface, evalCond_intGe_pieces,
        Bool.and_assoc]
  · cases h1 : truthy f.ville <;> cases h2 : truthy f.type_bien <;> cases h3 : truthy f.statut <;>
      cases h4 : truthy f.prix_min <;> cases h5 : truthy f.prix_max <;>
      cases h6 : truthy f.surface_min <;> cases h7 : truthy f.nombre_pieces_min <;>
      simp [whereConditions, numPresent, presencePattern, h1, h2, h3, h4, h5, h6, h7]

theorem flatMap_filter_length {β : Type _} (us : List β) (π : Bien → β → Bool)
    (mk2 : Bien → β → ListRow) (q : Bien → Bool)
    (hmk : ∀ b u, (mk2 b u).bien = b) :
    ∀ bs : List Bien, (∀ b ∈ bs, (us.filter (π b)).length = 1) →
      ((bs.flatMap (fun b => (us.filter (π b)).map (mk2 b))).filter
          (fun r => q r.bien)).length
        = (bs.filter q).length := by
  intro bs
  induction bs with
  | nil => simp
  | cons b bs ih =>
    intro h
    have hb := h b (List.mem_cons_self b bs)
    have hrest := fun b' hb' => h b' (List.mem_cons_of_mem b hb')
    have hhead : (((us.filter (π b)).map (mk2 b)).filter (fun r => q r.bien)).length
        = if q b then 1 else 0 := by
      rw [List.filter_map]
      have hfun : ((fun r => q r.bien) ∘ mk2 b) = fun u => q b := by
        funext u
        simp [hmk]
      rw [hfun]
      cases hq : q b <;> simp [hq, hb]
    cases hq : q b <;>
      simp [List.filter_append, ih hrest, hhead, hq, List.filter_cons]
    all_goals omega

/-- Claim C2 (counterexample): on a store holding one published bien whose
owner reference matches no user row, the count query reports 1 while the main
query (before `LIMIT`/`OFFSET`) returns no rows — the inner `JOIN
utilisateurs` drops the orphan, so the two queries drift. -/
theorem count_drifts_from_main_on_orphan_owner :
    countTotal fNone dbOrphan = 1 ∧ (mainRowsAll fNone dbOrphan).length = 0 := by
  decide

/-- Claim C2 (amended): the count query and the main query embed the
identical `WHERE` clause and bound-parameter list, and on every store in
which each bien's `proprietaire_id` matches exactly one user row the total
reported by the count query equals the number of rows the main query would
return without `LIMIT`/`OFFSET`. -/
theorem count_agrees_with_main_under_intact_owners (f : ListFilters) (db : Db)
    (hfk : ∀ b ∈ db.biens,
      (db.utilisateurs.filter (fun u => u.id == b.proprietaire_id)).length = 1) :
    countTotal f db = (mainRowsAll f db).length
    ∧ (∃ pre post pre2 post2,
        countQueryText f = pre ++ whereClause f ++ post
        ∧ mainQueryText f = pre2 ++ whereClause f ++ post2) := by
  constructor
  · rw [mainRowsAll, length_sortLe, countTotal, joinRows]
    exact (flatMap_filter_length db.utilisateurs
      (fun b u => u.id == b.proprietaire_id) (mkListRow db) (fun b => rowMatches f b)
      (fun b u => rfl) db.biens hfk).symm
  · exact ⟨_, _, _, _, rfl, rfl⟩

/-- Concrete instance of amended C2: on a one-bien store with an intact owner
reference, count and main query agree. -/
theorem count_agrees_with_main_under_intact_owners_witness :
    countTotal fNone db1 = (mainRowsAll fNone db1).length :=
  (count_agrees_with_main_under_intact_owners fNone db1 (by decide)).1

theorem ratFloor_eq_floor (q : ℚ) : Rat.floor q = ⌊q⌋ := rfl

theorem ceilQ_eq_ceil (q : ℚ) : ceilQ q = ⌈q⌉ := by
  rw [ceilQ, ratFloor_eq_floor, Int.floor_neg, neg_neg]

/-- Claim C4: with `page` parsing to `p` and `limit` to a positive `l`
(defaulting to 1 and 20 when absent), the list endpoint applies
`LIMIT l OFFSET (p-1)*l` to the filtered ordered row set and reports
`pages = ceil(total / l)`. -/
theorem pagination_limit_offset_and_ceiling (f : ListFilters) (db : Db) (p l : ℤ)
    (resp : ListResponse) (hp : parsedPage f = some p) (hl : parsedLimit f = some l)
    (hpos : 0 < l) (hok : listEndpoint f db = .ok resp) :
    resp.biens = ((mainRowsAll f db).drop ((p - 1) * l).toNat).take l.toNat
    ∧ resp.page = some p ∧ resp.limit = some l
    ∧ resp.total = countTotal f db
    ∧ resp.pages = some ⌈(countTotal f db : ℚ) / (l : ℚ)⌉
    ∧ (∀ g : ListFilters, g.page = none → parsedPage g = some 1)
    ∧ (∀ g : ListFilters, g.limit = none → parsedLimit g = some 20) := by
  have hresp : ListOutcome.ok
      { biens := jsTake l (jsDrop ((p - 1) * l) (mainRowsAll f db))
        total := countTotal f db
        page := some p
        limit := some l
        pages := if l = 0 then none else some (ceilQ (Rat.divInt (countTotal f db : ℤ) l))
        filters := f } = ListOutcome.ok resp := by
    rw [← hok]
    simp [listEndpoint, hp, hl]
  have heq := (ListOutcome.ok.injEq _ _).mp hresp
  rw [← heq]
  refine ⟨?_, rfl, rfl, rfl, ?_, ?_, ?_⟩
  · simp [jsTake, jsDrop, show ¬l < 0 by omega]
  · simp only [show l ≠ 0 by omega, if_false]
    rw [ceilQ_eq_ceil, Rat.divInt_eq_div]
    norm_num
  · intro g hg
    simp [parsedPage, hg]
  · intro g hg
    simp [parsedLimit, hg]

/-- Concrete instance of C4: page 2 with page size 10 over a one-row store
takes rows 11–20 of the ordered set (here: none). -/
theorem pagination_limit_offset_and_ceiling_witness :
    respPage2.biens
      = ((mainRowsAll fPage2 db1).drop (((2 : ℤ) - 1) * 10).toNat).take (10 : ℤ).toNat :=
  (pagination_limit_offset_and_ceiling fPage2 db1 2 10 respPage2
    (by decide) (by decide) (by decide) (by decide)).1

/-- The derived response components depend on the filters only through the
generated conditions, parameters and pagination inputs. -/
theorem respCore_congr (f g : ListFilters) (db : Db)
    (hw : whereConditions f = whereConditions g) (hq : queryParams f = queryParams g)
    (hpg : f.page = g.page) (hlim : f.limit = g.limit) :
    respCore (listEndpoint f db) = respCore (listEndpoint g db) := by
  have hrm : ∀ b, rowMatches f b = rowMatches g b := by
    intro b
    simp only [rowMatches, hw, hq]
  have hct : countTotal f db = countTotal g db := by
    have hfun : (fun b : Bien => rowMatches f b) = fun b => rowMatches g b := funext hrm
    rw [countTotal, countTotal, hfun]
  have hmra : mainRowsAll f db = mainRowsAll g db := by
    have hfun2 : (fun r : ListRow => rowMatches f r.bien) = fun r => rowMatches g r.bien := by
      funext r
      exact hrm r.bien
    rw [mainRowsAll, mainRowsAll, hfun2]
  have hpp : parsedPage f = parsedPage g := by
    simp only [parsedPage, hpg]
  have hpl : parsedLimit f = parsedLimit g := by
    simp only [parsedLimit, hlim]
  simp only [listEndpoint, hpp, hpl, hct, hmra]
  cases parsedPage g <;> cases parsedLimit g <;> simp [respCore]

/-- Claim C10: a filter supplied as the empty string is treated exactly like
an absent filter: it contributes no condition and no bound parameter, and the
derived response components (rows, total, pagination) coincide with those of
the request that omits the parameter. -/
theorem empty_string_filters_are_absent (f : ListFilters) (db : Db) :
    (whereConditions { f with ville := some "" } = whereConditions { f with ville := none }
      ∧ queryParams { f with ville := some "" } = queryParams { f with ville := none }
      ∧ respCore (listEndpoint { f with ville := some "" } db)
          = respCore (listEndpoint { f with ville := none } db))
    ∧ (whereConditions { f with type_bien := some "" } = whereConditions { f with type_bien := none }
      ∧ queryParams { f with type_bien := some "" } = queryParams { f with type_bien := none }
      ∧ respCore (listEndpoint { f with type_bien := some "" } db)
          = respCore (listEndpoint { f with type_bien := none } db))
    ∧ (whereConditions { f with statut := some "" } = whereConditions { f with statut := none }
      ∧ queryParams { f with statut := some "" } = queryParams { f with statut := none }
      ∧ respCore (listEndpoint { f with statut := some "" } db)
          = respCore (listEndpoint { f with statut := none } db))
    ∧ (whereConditions { f with prix_min := some "" } = whereConditions { f with prix_min := none }
      ∧ queryParams { f with prix_min := some "" } = queryParams { f with prix_min := none }
      ∧ respCore (listEndpoint { f with prix_min := some "" } db)
          = respCore (listEndpoint { f with prix_min := none } db))
    ∧ (whereConditions { f with prix_max := some "" } = whereConditions { f with prix_max := none }
      ∧ queryParams { f with prix_max := some "" } = queryParams { f with prix_max := none }
      ∧ respCore (listEndpoint { f with prix_max := some "" } db)
          = respCore (listEndpoint { f with prix_max := none } db))
    ∧ (whereConditions { f with surface_min := some "" } = whereConditions { f with surface_min := none }
      ∧ queryParams { f with surface_min := some "" } = queryParams { f with surface_min := none }
      ∧ respCore (listEndpoint { f with surface_min := some "" } db)
          = respCore (listEndpoint { f with surface_min := none } db))
    ∧ (whereConditions { f with nombre_pieces_min := some "" }
          = whereConditions { f with nombre_pieces_min := none }
      ∧ queryParams { f with nombre_pieces_min := some "" }
          = queryParams { f with nombre_pieces_min := none }
      ∧ respCore (listEndpoint { f with nombre_pieces_min := some "" } db)
          = respCore (listEndpoint { f with nombre_pieces_min := none } db)) :=
  ⟨⟨rfl, rfl, respCore_congr _ _ db rfl rfl rfl rfl⟩,
   ⟨rfl, rfl, respCore_congr _ _ db rfl rfl rfl rfl⟩,
   ⟨rfl, rfl, respCore_congr _ _ db rfl rfl rfl rfl⟩,
   ⟨rfl, rfl, respCore_congr _ _ db rfl rfl rfl rfl⟩,
   ⟨rfl, rfl, respCore_congr _ _ db rfl rfl rfl rfl⟩,
   ⟨rfl, rfl, respCore_congr _ _ db rfl rfl rfl rfl⟩,
   ⟨rfl, rfl, respCore_congr _ _ db rfl rfl rfl rfl⟩⟩

theorem isEmpty_false_of_ne {s : String} (h : s ≠ "") : s.isEmpty = false := by
  cases hb : s.isEmpty
  · rfl
  · exact absurd ((String.isEmpty_iff s).mp hb) h

theorem likeMatches_percent (p s : List Char) :
    likeMatches ('%' :: p) s = s.tails.any (fun t => likeMatches p t) := by
  simp [likeMatches]

theorem likeMatches_percent_iff (p s : List Char) :
    likeMatches ('%' :: p) s = true ↔ ∃ t, t <:+ s ∧ likeMatches p t = true := by
  rw [likeMatches_percent]
  simp [List.any_eq_true, List.mem_tails]

theorem likeMatches_all (t : List Char) : likeMatches ['%'] t = true := by
  rw [likeMatches_percent]
  simp [List.any_eq_true, List.mem_tails]
  exact ⟨[], List.nil_suffix, by simp [likeMatches]⟩

theorem likeMatches_literal (v : List Char) (h1 : '%' ∉ v) (h2 : '_' ∉ v) :
    ∀ t : List Char, likeMatches (v ++ ['%']) t = true
      ↔ (v.map Char.toLower) <+: (t.map Char.toLower) := by
  induction v with
  | nil =>
    intro t
    simp [likeMatches_all]
  | cons c v ih =>
    intro t
    have hc1 : ¬c = '%' := fun hc => h1 (by simp [hc])
    have hc2 : ¬c = '_' := fun hc => h2 (by simp [hc])
    have hv1 : '%' ∉ v := fun hm => h1 (List.mem_cons_of_mem c hm)
    have hv2 : '_' ∉ v := fun hm => h2 (List.mem_cons_of_mem c hm)
    cases t with
    | nil => simp [likeMatches, hc1]
    | cons d t2 =>
      simp [likeMatches, hc1, hc2, ih hv1 hv2 t2, List.cons_prefix_cons]

theorem likeMatch_city_iff (v s : String) (h1 : '%' ∉ v.toList) (h2 : '_' ∉ v.toList) :
    (likeMatch ("%" ++ v ++ "%") s = true ↔ substrCI v s) := by
  have hdata : ("%" ++ v ++ "%").toList = '%' :: (v.toList ++ ['%']) := by
    show ("%" ++ v ++ "%").data = '%' :: (v.data ++ ['%'])
    simp [String.data_append]
  rw [likeMatch, hdata, likeMatches_percent_iff]
  constructor
  · rintro ⟨t, hts, hm⟩
    exact List.infix_iff_prefix_suffix.mpr
      ⟨t.map Char.toLower, (likeMatches_literal v.toList h1 h2 t).mp hm,
        hts.map Char.toLower⟩
  · intro hinf
    obtain ⟨u, hpre, hsuf⟩ := List.infix_iff_prefix_suffix.mp hinf
    obtain ⟨w, hw⟩ := hsuf
    refine ⟨s.toList.drop w.length, List.drop_suffix _ _, ?_⟩
    apply (likeMatches_literal v.toList h1 h2 _).mpr
    have hu : u = (s.toList.map Char.toLower).drop w.length := by
      rw [← hw, List.drop_left]
    rw [List.map_drop, ← hu]
    exact hpre

/-- Claim C6 (counterexample): the city filter value is wrapped in a `LIKE`
pattern, so the SQL wildcards `%` and `_` inside the caller's value keep
their wildcard meaning: the filter value `a_c` matches the stored city `abc`,
although `a_c` is not a (case-insensitive) substring of `abc` — the
claimed "matches exactly when v is a substring" equivalence fails. -/
theorem city_filter_wildcard_counterexample :
    rowMatches { ville := some "a_c" } { bien1 with ville := "abc" } = true
    ∧ ¬substrCI "a_c" "abc" := by
  constructor
  · decide
  · decide

/-- Claim C6 (amended): for city values free of the SQL `LIKE` wildcards `%`
and `_`, the city predicate matches a stored city exactly when the value is a
case-insensitive substring of it (values containing wildcards are instead
interpreted as `LIKE` patterns); the numeric filters compare with `>=`/`<=`
bounds and `type_bien`/`statut` filter by exact equality. -/
theorem filter_predicate_semantics (v s w1 w2 : String) (b : Bien)
    (vmin vmax vsurf vnp : String) (q1 q2 q3 : ℚ) (m : ℤ)
    (h1 : '%' ∉ v.toList) (h2 : '_' ∉ v.toList) (hv : v ≠ "")
    (hq1 : parseFloatJs vmin = some q1) (hne1 : vmin ≠ "")
    (hq2 : parseFloatJs vmax = some q2) (hne2 : vmax ≠ "")
    (hq3 : parseFloatJs vsurf = some q3) (hne3 : vsurf ≠ "")
    (hm : parseIntJs vnp = some m) (hne4 : vnp ≠ "")
    (hw1 : w1 ≠ "") (hw2 : w2 ≠ "") :
    (likeMatch ("%" ++ v ++ "%") s = true ↔ substrCI v s)
    ∧ rowMatches { ville := some v } b
        = (b.statut_publication == "publie" && likeMatch ("%" ++ v ++ "%") b.ville)
    ∧ rowMatches { prix_min := some vmin } b
        = (b.statut_publication == "publie" && decide (b.prix ≥ q1))
    ∧ rowMatches { prix_max := some vmax } b
        = (b.statut_publication == "publie" && decide (b.prix ≤ q2))
    ∧ rowMatches { surface_min := some vsurf } b
        = (b.statut_publication == "publie" && decide (b.surface ≥ q3))
    ∧ rowMatches { nombre_pieces_min := some vnp } b
        = (b.statut_publication == "publie" && decide (b.nombre_pieces ≥ m))
    ∧ rowMatches { type_bien := some w1 } b
        = (b.statut_publication == "publie" && (b.type_bien == w1))
    ∧ rowMatches { statut := some w2 } b
        = (b.statut_publication == "publie" && (b.statut == w2)) := by
  have hev : v.isEmpty = false := isEmpty_false_of_ne hv
  have he1 : vmin.isEmpty = false := isEmpty_false_of_ne hne1
  have he2 : vmax.isEmpty = false := isEmpty_false_of_ne hne2
  have he3 : vsurf.isEmpty = false := isEmpty_false_of_ne hne3
  have he4 : vnp.isEmpty = false := isEmpty_false_of_ne hne4
  have hew1 : w1.isEmpty = false := isEmpty_false_of_ne hw1
  have hew2 : w2.isEmpty = false := isEmpty_false_of_ne hw2
  refine ⟨likeMatch_city_iff v s h1 h2, ?_, ?_, ?_, ?_, ?_, ?_, ?_⟩
  · simp [rowMatches, whereConditions, queryParams, truthy, hev,
      evalCond_base, evalCond_ville]
  · simp [rowMatches, whereConditions, queryParams, truthy, he1,
      evalCond_base, evalCond_numGe_prix, hq1, numGe, ge_iff_le]
  · simp [rowMatches, whereConditions, queryParams, truthy, he2,
      evalCond_base, evalCond_numLe_prix, hq2, numLeQ]
  · simp [rowMatches, whereConditions, queryParams, truthy, he3,
      evalCond_base, evalCond_numGe_surface, hq3, numGe, ge_iff_le]
  · simp [rowMatches, whereConditions, queryParams, truthy, he4,
      evalCond_base, evalCond_intGe_pieces, hm, intGeQ, ge_iff_le, Int.cast_le]
  · simp [rowMatches, whereConditions, queryParams, truthy, hew1,
      evalCond_base, evalCond_type_bien]
  · simp [rowMatches, whereConditions, queryParams, truthy, hew2,
      evalCond_base, evalCond_statut]

/-- Concrete instance of amended C6: the filter value `par` matches the
stored city `Paris` (case-insensitive substring). -/
theorem filter_predicate_semantics_witness :
    (likeMatch ("%" ++ "par" ++ "%") "Paris" = true ↔ substrCI "par" "Paris") :=
  (filter_predicate_semantics "par" "Paris" "villa" "vente" bien1
    "100" "200" "30" "2" 100 200 30 2
    (by decide) (by decide) (by decide) (by decide) (by decide) (by decide) (by decide)
    (by decide) (by decide) (by decide) (by decide) (by decide) (by decide)).1

/-- Claim C7 (code evidence): the detail endpoint's id validation is defeated
by `parseInt` truncation.  The code's own comment and its dead
`Number.isInteger` check say non-integer ids should get a 400, but
`parseInt("5.9") = 5`, so `GET /5.9` against a store holding published bien 5
answers 200 with that bien instead of a 400.  `NaN` and non-positive parses
do get 400, and an unmatched positive id gets 404. -/
theorem detail_id_parseint_truncation :
    parseIntJs "5.9" = some 5
    ∧ getBienDetail "5.9" db5 = .ok (mkDetailRow { bien1 with id := 5 } user1) []
    ∧ getBienDetail "abc" db5
        = .badRequest "ID invalide" "L\x27ID du bien doit être un nombre entier positif"
    ∧ getBienDetail "-3" db5
        = .badRequest "ID invalide" "L\x27ID du bien doit être un nombre entier positif"
    ∧ getBienDetail "0" db5
        = .badRequest "ID invalide" "L\x27ID du bien doit être un nombre entier positif"
    ∧ getBienDetail "7" db5
        = .notFound "Bien non trouvé" "Le bien demandé n\x27existe pas ou n\x27est pas publié" := by
  refine ⟨by decide, by decide, by decide, by decide, by decide, by decide⟩

theorem createBien_invalid (d : NewDefaults) (uid : ℤ) (raw : CreateBody) (db : Db)
    (h : bienValidationErrors (sanitizeBien raw) ≠ []) :
    createBien d uid raw db = (.invalid (bienValidationErrors (sanitizeBien raw)), db) := by
  simp [createBien, List.isEmpty_eq_true, h]

/-- Any reported validation failure on the `prix` field means the price check
failed, and likewise for `surface`. -/
theorem bienValidationErrors_field_char (bq : CreateBody) (e : ValError)
    (he : e ∈ bienValidationErrors bq) :
    (e.field = "prix" → ¬(mkRat 1 100 ≤ bq.prix))
    ∧ (e.field = "surface" → ¬(mkRat 1 100 ≤ bq.surface)) := by
  simp only [bienValidationErrors, List.mem_map] at he
  obtain ⟨r, hr, rfl⟩ := he
  obtain ⟨hrin, hrfail⟩ := List.mem_filter.mp hr
  fin_cases hrin <;>
    refine ⟨fun hf => ?_, fun hf => ?_⟩ <;>
    first
      | exact absurd hf (by decide)
      | (simp at hrfail; exact not_le.mpr hrfail)

/-- Claim C8: the validation rules reject `prix = 0` and `surface = 0` with a
400 carrying the itemized field errors (and no insert), accept `prix = 0.01`
and `surface = 0.01`, and the insert happens exactly when all thirteen field
validations pass.  (`mkRat 1 100` is the decimal 0.01 of the `isFloat`
bound.) -/
theorem create_rejects_zero_price_and_surface (d : NewDefaults) (uid : ℤ)
    (raw : CreateBody) (db : Db) :
    ((mkRat 1 100 : ℚ) = 0.01)
    ∧ (raw.prix = 0 →
        (∃ e ∈ bienValidationErrors (sanitizeBien raw), e.field = "prix")
        ∧ createBien d uid raw db = (.invalid (bienValidationErrors (sanitizeBien raw)), db))
    ∧ (raw.surface = 0 →
        (∃ e ∈ bienValidationErrors (sanitizeBien raw), e.field = "surface")
        ∧ createBien d uid raw db = (.invalid (bienValidationErrors (sanitizeBien raw)), db))
    ∧ (raw.prix = 0.01 → ∀ e ∈ bienValidationErrors (sanitizeBien raw), e.field ≠ "prix")
    ∧ (raw.surface = 0.01 → ∀ e ∈ bienValidationErrors (sanitizeBien raw), e.field ≠ "surface")
    ∧ (bienValidationErrors (sanitizeBien raw) ≠ [] →
        createBien d uid raw db = (.invalid (bienValidationErrors (sanitizeBien raw)), db))
    ∧ (bienValidationErrors (sanitizeBien raw) = [] →
        (createBien d uid raw db).2.biens
          = db.biens ++ [insertedBien d uid (sanitizeBien raw) (nextBienId db)]) := by
  have h001 : (mkRat 1 100 : ℚ) = 0.01 := by
    rw [Rat.mkRat_eq_divInt, Rat.divInt_eq_div]
    norm_num
  have hprix : (sanitizeBien raw).prix = raw.prix := rfl
  have hsurf : (sanitizeBien raw).surface = raw.surface := rfl
  have hmemPrix : raw.prix = 0 →
      (⟨"prix", "Le prix doit être un nombre positif supérieur à 0"⟩ : ValError)
        ∈ bienValidationErrors (sanitizeBien raw) := by
    intro hp
    apply List.mem_map.mpr
    refine ⟨("prix", "Le prix doit être un nombre positif supérieur à 0",
      fun b : CreateBody => decide (mkRat 1 100 ≤ b.prix)), ?_, rfl⟩
    refine List.mem_filter.mpr ⟨?_, ?_⟩
    · unfold bienRules
      exact List.mem_cons_of_mem _ (List.mem_cons_of_mem _ (List.mem_cons_of_mem _
        (List.mem_cons_of_mem _ (List.mem_cons_self _ _))))
    · simp only [Bool.not_eq_true']
      rw [decide_eq_false_iff_not, hprix, hp]
      decide
  have hmemSurf : raw.surface = 0 →
      (⟨"surface", "La surface doit être un nombre positif supérieur à 0"⟩ : ValError)
        ∈ bienValidationErrors (sanitizeBien raw) := by
    intro hp
    apply List.mem_map.mpr
    refine ⟨("surface", "La surface doit être un nombre positif supérieur à 0",
      fun b : CreateBody => decide (mkRat 1 100 ≤ b.surface)), ?_, rfl⟩
    refine List.mem_filter.mpr ⟨?_, ?_⟩
    · unfold bienRules
      exact List.mem_cons_of_mem _ (List.mem_cons_of_mem _ (List.mem_cons_of_mem _
        (List.mem_cons_of_mem _ (List.mem_cons_of_mem _ (List.mem_cons_of_mem _
          (List.mem_cons_self _ _))))))
    · simp only [Bool.not_eq_true']
      rw [decide_eq_false_iff_not, hsurf, hp]
      decide
  refine ⟨h001, ?_, ?_, ?_, ?_, ?_, ?_⟩
  · intro hp
    have hm := hmemPrix hp
    exact ⟨⟨_, hm, rfl⟩, createBien_invalid d uid raw db (List.ne_nil_of_mem hm)⟩
  · intro hp
    have hm := hmemSurf hp
    exact ⟨⟨_, hm, rfl⟩, createBien_invalid d uid raw db (List.ne_nil_of_mem hm)⟩
  · intro hp e he hf
    apply (bienValidationErrors_field_char _ e he).1 hf
    rw [hprix, hp, ← h001]
  · intro hp e he hf
    apply (bienValidationErrors_field_char _ e he).2 hf
    rw [hsurf, hp, ← h001]
  · exact createBien_invalid d uid raw db
  · intro h
    simp [createBien, h]

/-- Concrete instance of C8: a create request with `prix = 0` is answered
with the itemized validation errors and the store is untouched. -/
theorem create_rejects_zero_price_and_surface_witness :
    createBien defaultsSample 1 { bodyPadded with prix := 0 } db1
      = (.invalid (bienValidationErrors (sanitizeBien { bodyPadded with prix := 0 })), db1) :=
  ((create_rejects_zero_price_and_surface defaultsSample 1
    { bodyPadded with prix := 0 } db1).2.1 rfl).2

theorem putBien_valid_db (bienId : ℤ) (raw : CreateBody) (db : Db)
    (h : bienValidationErrors (sanitizeBien raw) = []) :
    (putBien bienId raw db).2.biens
      = db.biens.map (fun r => if r.id == bienId then applyBienUpdate (sanitizeBien raw) r else r) := by
  simp [putBien, h]

/-- Claim C9 (counterexample): the update endpoint stores the
trim-sanitized text fields, not the verbatim request-body values — a `titre`
sent with surrounding whitespace is persisted trimmed, so "replaced by the
request-body values" fails for the five trimmed fields. -/
theorem update_does_not_store_raw_title :
    (putBien 1 bodyPadded db1).2.biens.map (fun r => r.titre) = ["Superbe appartement T3"]
    ∧ bodyPadded.titre = "  Superbe appartement T3  "
    ∧ ("Superbe appartement T3" : String) ≠ "  Superbe appartement T3  " := by
  refine ⟨by decide, rfl, by decide⟩

/-- Claim C9 (amended): a successful `PUT /:id` replaces exactly the thirteen
mutable fields of every row with the targeted id by the request-body values
after the validation chain's trim sanitization of the five text fields
(`titre`, `description`, `adresse_complete`, `ville`, `code_postal`; the
other eight are stored verbatim); `id`, `proprietaire_id`,
`statut_publication` and `date_publication` keep their values, and rows with
a different id are unchanged. -/
theorem update_replaces_exactly_the_mutable_fields (bienId : ℤ) (raw : CreateBody)
    (db : Db) (h : bienValidationErrors (sanitizeBien raw) = []) :
    (putBien bienId raw db).2.biens.length = db.biens.length
    ∧ ∀ (i : ℕ) (old : Bien), db.biens[i]? = some old →
        ∃ new : Bien, (putBien bienId raw db).2.biens[i]? = some new
          ∧ (old.id ≠ bienId → new = old)
          ∧ (old.id = bienId →
              new.titre = jsTrim raw.titre ∧ new.description = jsTrim raw.description
              ∧ new.type_bien = raw.type_bien ∧ new.statut = raw.statut
              ∧ new.prix = raw.prix ∧ new.modalite_paiement = raw.modalite_paiement
              ∧ new.surface = raw.surface ∧ new.nombre_pieces = raw.nombre_pieces
              ∧ new.adresse_complete = jsTrim raw.adresse_complete
              ∧ new.ville = jsTrim raw.ville ∧ new.code_postal = jsTrim raw.code_postal
              ∧ new.latitude = raw.latitude ∧ new.longitude = raw.longitude
              ∧ new.id = old.id ∧ new.proprietaire_id = old.proprietaire_id
              ∧ new.statut_publication = old.statut_publication
              ∧ new.date_publication = old.date_publication) := by
  constructor
  · rw [putBien_valid_db _ _ _ h, List.length_map]
  · intro i old hold
    rw [putBien_valid_db _ _ _ h, List.getElem?_map, hold]
    refine ⟨_, rfl, ?_, ?_⟩
    · intro hne
      simp [show (old.id == bienId) = false by simpa using hne]
    · intro heq
      simp [show (old.id == bienId) = true by simpa using heq,
        applyBienUpdate, sanitizeBien]

/-- Concrete instance of amended C9: updating the one-bien store with a valid
body keeps the store's size. -/
theorem update_replaces_exactly_the_mutable_fields_witness :
    (putBien 1 bodyPadded db1).2.biens.length = db1.biens.length :=
  (update_replaces_exactly_the_mutable_fields 1 bodyPadded db1 (by decide)).1

end Biens
